import Mathlib

/-!
Verification of the property-to-widget binding mechanism of
`src/gui/wxpython/mapdisp/properties.py` (GRASS GIS map-display
properties dialog).

The Python module defines `PropertyItem` (the generic binding of one
checkbox widget to one boolean property of a `MapWindowProperties`
store) and four concrete bindings `ChBRender`, `ChBAlignExtent`,
`ChBResolution`, `ChBShowRegion`.  We embed the system state (store,
widget values, per-signal subscriber lists) together with an explicit
event trace recording every `SetValue` call, every subscription change,
every store write, every signal delivery and every redraw request, so
that ordering and exact-count properties become statements about the
trace.
-/

namespace MapDispProperties

/-- The four boolean properties of the `MapWindowProperties` store. -/
inductive PropName where
  | autoRender
  | alignExtent
  | resolution
  | showRegion
deriving DecidableEq, Repr

/-- The four concrete bindings of the dialog:
`ChBRender`, `ChBAlignExtent`, `ChBResolution`, `ChBShowRegion`. -/
inductive BindingId where
  | render
  | alignExtent
  | resolution
  | showRegion
deriving DecidableEq, Repr

/-- The store property each binding reads and writes, i.e. the
`mapWindowProperty` getter/setter pair of each `ChB*` class. -/
def boundProp : BindingId → PropName
  | .render => .autoRender
  | .alignExtent => .alignExtent
  | .resolution => .resolution
  | .showRegion => .showRegion

/-- A handler subscribed to a property signal: either a binding's
`_setValue` bound method, or some other observer outside this module. -/
inductive Handler where
  | binding (b : BindingId)
  | external (id : Nat)
deriving DecidableEq, Repr

/-- The `MapWindowProperties` store: four boolean flags. -/
structure Store where
  autoRender : Bool
  alignExtent : Bool
  resolution : Bool
  showRegion : Bool
deriving DecidableEq, Repr

/-- Read a property of the store (`store.get`). -/
def Store.get (s : Store) : PropName → Bool
  | .autoRender => s.autoRender
  | .alignExtent => s.alignExtent
  | .resolution => s.resolution
  | .showRegion => s.showRegion

/-- Overwrite one property of the store (the raw field assignment,
before any signal is emitted). -/
def Store.setVal (s : Store) (p : PropName) (v : Bool) : Store :=
  match p with
  | .autoRender => { s with autoRender := v }
  | .alignExtent => { s with alignExtent := v }
  | .resolution => { s with resolution := v }
  | .showRegion => { s with showRegion := v }

/-- Displayed value of each binding's checkbox widget. -/
structure Widgets where
  render : Bool
  alignExtent : Bool
  resolution : Bool
  showRegion : Bool
deriving DecidableEq, Repr

/-- `widget.GetValue()` of binding `b`'s checkbox. -/
def Widgets.get (w : Widgets) : BindingId → Bool
  | .render => w.render
  | .alignExtent => w.alignExtent
  | .resolution => w.resolution
  | .showRegion => w.showRegion

/-- Raw update of the displayed value of binding `b`'s checkbox. -/
def Widgets.set (w : Widgets) (b : BindingId) (v : Bool) : Widgets :=
  match b with
  | .render => { w with render := v }
  | .alignExtent => { w with alignExtent := v }
  | .resolution => { w with resolution := v }
  | .showRegion => { w with showRegion := v }

/-- Subscriber lists of the four property signals
(`autoRenderChanged`, `alignExtentChanged`, `resolutionChanged`,
`showRegionChanged`), in subscription order. -/
structure Subs where
  autoRender : List Handler
  alignExtent : List Handler
  resolution : List Handler
  showRegion : List Handler
deriving DecidableEq, Repr

/-- Subscriber list of property `p`'s signal. -/
def Subs.get (su : Subs) : PropName → List Handler
  | .autoRender => su.autoRender
  | .alignExtent => su.alignExtent
  | .resolution => su.resolution
  | .showRegion => su.showRegion

/-- Replace the subscriber list of property `p`'s signal. -/
def Subs.set (su : Subs) (p : PropName) (l : List Handler) : Subs :=
  match p with
  | .autoRender => { su with autoRender := l }
  | .alignExtent => { su with alignExtent := l }
  | .resolution => { su with resolution := l }
  | .showRegion => { su with showRegion := l }

/-- Observable events, recorded in program order.
`widgetSet b v` is a `widget.SetValue(v)` call on binding `b`'s
checkbox; `subscribe`/`unsubscribe` are signal `connect`/`disconnect`
calls; `storeWrite p v` is a write to store property `p` (which emits
`p`'s signal); `deliver p h v` is the signal of `p` invoking handler
`h` with the new value `v`; `redraw full` is a
`giface.updateMap.emit(...)` call, `full = true` for a full re-render
(`emit()`), `full = false` for `emit(render=False)`. -/
inductive Event where
  | widgetSet (b : BindingId) (v : Bool)
  | subscribe (b : BindingId) (p : PropName)
  | unsubscribe (b : BindingId) (p : PropName)
  | storeWrite (p : PropName) (v : Bool)
  | deliver (p : PropName) (h : Handler) (v : Bool)
  | redraw (full : Bool)
deriving DecidableEq, Repr

/-- Full system state: the store, the widgets, the signal subscriber
lists, and the trace of events so far. -/
structure State where
  store : Store
  widgets : Widgets
  subs : Subs
  events : List Event
deriving DecidableEq, Repr

/-- Append one event to the trace. -/
def logEvent (st : State) (e : Event) : State :=
  { st with events := st.events ++ [e] }

/-- `PropertyItem._setValue(value)`: `self.widget.SetValue(value)`.
Programmatic `SetValue` changes the displayed value without emitting a
toggle event. -/
def setValue (st : State) (b : BindingId) (v : Bool) : State :=
  logEvent { st with widgets := st.widgets.set b v } (.widgetSet b v)

/-- Effect of invoking handler `h` with new value `v`: a binding's
handler is its `_setValue` (sets its widget); an external handler has
no effect on the modelled state. -/
def applyHandler (st : State) (h : Handler) (v : Bool) : State :=
  match h with
  | .binding b => setValue st b v
  | .external _ => st

/-- One signal delivery: record the invocation, then run the handler. -/
def deliverTo (st : State) (p : PropName) (h : Handler) (v : Bool) : State :=
  applyHandler (logEvent st (.deliver p h v)) h v

/-- Modelled from the spec: the `Signal.emit` fan-out of the grass
`Signal` class (not under `src/`) — synchronous delivery to the given
snapshot of subscribers, in subscription order. -/
def dispatchList : State → List Handler → PropName → Bool → State
  | st, [], _, _ => st
  | st, h :: rest, p, v => dispatchList (deliverTo st p h v) rest p v

/-- Modelled from the spec: the `MapWindowProperties` property setter
(not under `src/`) — writes the value, then emits the property's
signal with the new value to all currently subscribed handlers. -/
def storeSet (st : State) (p : PropName) (v : Bool) : State :=
  let st1 := logEvent { st with store := st.store.setVal p v } (.storeWrite p v)
  dispatchList st1 (st1.subs.get p) p v

/-- Modelled from the spec: `Signal.connect(handler)` of the grass
`Signal` class (not under `src/`) — appends the handler to the
subscriber list. -/
def signalConnect (st : State) (p : PropName) (h : Handler) : State :=
  { st with subs := st.subs.set p (st.subs.get p ++ [h]) }

/-- Modelled from the spec: `Signal.disconnect(handler)` of the grass
`Signal` class (not under `src/`) — removes the handler's
subscription from the subscriber list. -/
def signalDisconnect (st : State) (p : PropName) (h : Handler) : State :=
  { st with subs := st.subs.set p ((st.subs.get p).erase h) }

/-- `PropertyItem._connect`:
`self.mapWindowPropertyChanged().connect(self._setValue)`. -/
def connect (st : State) (b : BindingId) : State :=
  logEvent (signalConnect st (boundProp b) (.binding b)) (.subscribe b (boundProp b))

/-- `PropertyItem._disconnect`:
`self.mapWindowPropertyChanged().disconnect(self._setValue)`. -/
def disconnect (st : State) (b : BindingId) : State :=
  logEvent (signalDisconnect st (boundProp b) (.binding b)) (.unsubscribe b (boundProp b))

/-- `PropertyItem._onToggleCheckBox`: disconnect from the property
signal, write `self.widget.GetValue()` into the bound property (which
fires the signal), reconnect. -/
def baseToggle (st : State) (b : BindingId) : State :=
  let st1 := disconnect st b
  let st2 := storeSet st1 (boundProp b) (st1.widgets.get b)
  connect st2 b

/-- The `_onToggleCheckBox` actually bound to the widget of binding
`b`: the base handler for `ChBRender` and `ChBAlignExtent`; the
overridden handlers of `ChBResolution` and `ChBShowRegion` call the
base handler first and then, if `self._properties.autoRender` holds,
emit `giface.updateMap` — a full re-render for resolution, a
non-full redraw (`render=False`) for show-region. -/
def onToggleCheckBox (st : State) (b : BindingId) : State :=
  match b with
  | .resolution =>
      let st1 := baseToggle st .resolution
      if st1.store.autoRender then logEvent st1 (.redraw true) else st1
  | .showRegion =>
      let st1 := baseToggle st .showRegion
      if st1.store.autoRender then logEvent st1 (.redraw false) else st1
  | b => baseToggle st b

/-- A user click on binding `b`'s checkbox: the toolkit changes the
displayed value to `v` (this is the user's direct interaction, not a
`SetValue` call), then fires `EVT_CHECKBOX`, running the binding's
`_onToggleCheckBox`. -/
def userToggle (st : State) (b : BindingId) (v : Bool) : State :=
  onToggleCheckBox { st with widgets := st.widgets.set b v } b

/-- A `store.set(P, v)` performed by a writer outside the bindings. -/
def externalSet (st : State) (p : PropName) (v : Bool) : State :=
  storeSet st p v

/-- `ChB*.__init__` (after `PropertyItem.__init__`): seed the widget
with `self.mapWindowProperty` via `SetValue`, bind `EVT_CHECKBOX`,
then `self._connect()`. -/
def constructBinding (st : State) (b : BindingId) : State :=
  connect (setValue st b (st.store.get (boundProp b))) b

/-- `MapDisplayPropertiesDialog._createDisplayPage`: constructs the
four bindings in order render, align-extent, resolution, show-region. -/
def constructDialog (st : State) : State :=
  constructBinding (constructBinding (constructBinding (constructBinding st
    .render) .alignExtent) .resolution) .showRegion

/-- Initial state of a dialog session: store `s0`, widgets in some
default position, subscriber lists `su` (observers outside this
module), empty trace, then the dialog constructs the four bindings. -/
def initState (s0 : Store) (w0 : Widgets) (su : Subs) : State :=
  constructDialog { store := s0, widgets := w0, subs := su, events := [] }

/-- `true` when the list holds no binding handler (only observers
outside this module). -/
def noBindings (l : List Handler) : Bool :=
  l.all fun h => match h with
    | .binding _ => false
    | .external _ => true

/-- `true` when every subscriber list holds only observers outside
this module. -/
def Subs.extOnly (su : Subs) : Bool :=
  noBindings su.autoRender && noBindings su.alignExtent &&
    noBindings su.resolution && noBindings su.showRegion

/-- States reachable in a dialog session: start from a freshly
constructed dialog (any store contents, any outside observers), then
any interleaving of user toggles and store writes from outside the
bindings. -/
inductive Reachable : State → Prop
  | start (s0 : Store) (w0 : Widgets) (su : Subs) (h : su.extOnly = true) :
      Reachable (initState s0 w0 su)
  | toggle {st : State} (b : BindingId) (v : Bool) :
      Reachable st → Reachable (userToggle st b v)
  | extWrite {st : State} (p : PropName) (v : Bool) :
      Reachable st → Reachable (externalSet st p v)

/-- Events that change the binding protocol's control state:
subscriptions, unsubscriptions and store writes. -/
def Event.isCtl : Event → Bool
  | .subscribe _ _ => true
  | .unsubscribe _ _ => true
  | .storeWrite _ _ => true
  | _ => false

/-- Store-write events. -/
def Event.isWrite : Event → Bool
  | .storeWrite _ _ => true
  | _ => false

/-- Signal-delivery events. -/
def Event.isDeliver : Event → Bool
  | .deliver _ _ _ => true
  | _ => false

/-- Signal-delivery events of property `p`'s signal. -/
def Event.isDeliverOf (p : PropName) : Event → Bool
  | .deliver q _ _ => q = p
  | _ => false

/-- Redraw-request events. -/
def Event.isRedraw : Event → Bool
  | .redraw _ => true
  | _ => false

/-- `SetValue` events on binding `b`'s widget. -/
def Event.isWidgetSetOf (b : BindingId) : Event → Bool
  | .widgetSet c _ => c = b
  | _ => false

/-- Number of subscriptions binding `b`'s handler holds on its own
property's signal. -/
def subCount (st : State) (b : BindingId) : Nat :=
  (st.subs.get (boundProp b)).count (Handler.binding b)

/-- The trace segment one signal delivery appends: the invocation of
the handler, then for a binding handler the `SetValue` it performs. -/
def handlerEvents (p : PropName) (h : Handler) (v : Bool) : List Event :=
  match h with
  | .binding b => [.deliver p h v, .widgetSet b v]
  | .external _ => [.deliver p h v]

/-- A concrete store with all flags cleared, used to instantiate the
general theorems on concrete runs. -/
def store0 : Store :=
  { autoRender := false
    alignExtent := false
    resolution := false
    showRegion := false }

/-- A concrete widget configuration with all checkboxes cleared. -/
def widgets0 : Widgets :=
  { render := false
    alignExtent := false
    resolution := false
    showRegion := false }

/-- Concrete subscriber lists: the render binding and one outside
observer on `autoRenderChanged`, nothing else. -/
def subs1 : Subs :=
  { autoRender := [Handler.binding BindingId.render, Handler.external 7]
    alignExtent := []
    resolution := []
    showRegion := [] }

/-- A concrete state used to instantiate the general theorems. -/
def state1 : State :=
  { store := store0
    widgets := widgets0
    subs := subs1
    events := [] }

/-- Concrete subscriber lists holding only outside observers. -/
def subs0 : Subs :=
  { autoRender := [Handler.external 3]
    alignExtent := []
    resolution := []
    showRegion := [Handler.external 4] }

/-! ### Basic lemmas about the record components -/

theorem Store.get_setVal (s : Store) (p q : PropName) (v : Bool) :
    (s.setVal q v).get p = if p = q then v else s.get p := by
  cases p <;> cases q <;> simp [Store.get, Store.setVal]

theorem widgets_get_set (w : Widgets) (b c : BindingId) (v : Bool) :
    (w.set c v).get b = if b = c then v else w.get b := by
  cases b <;> cases c <;> simp [Widgets.get, Widgets.set]

theorem subs_get_set (su : Subs) (p q : PropName) (l : List Handler) :
    (su.set q l).get p = if p = q then l else su.get p := by
  cases p <;> cases q <;> simp [Subs.get, Subs.set]

theorem subs_set_set (su : Subs) (p : PropName) (l1 l2 : List Handler) :
    (su.set p l1).set p l2 = su.set p l2 := by
  cases p <;> rfl

theorem boundProp_eq_iff (b c : BindingId) : boundProp b = boundProp c ↔ b = c := by
  cases b <;> cases c <;> simp [boundProp]

/-! ### Component lemmas for the primitive operations -/

@[simp] theorem logEvent_store (st : State) (e : Event) :
    (logEvent st e).store = st.store := rfl

@[simp] theorem logEvent_widgets (st : State) (e : Event) :
    (logEvent st e).widgets = st.widgets := rfl

@[simp] theorem logEvent_subs (st : State) (e : Event) :
    (logEvent st e).subs = st.subs := rfl

@[simp] theorem logEvent_events (st : State) (e : Event) :
    (logEvent st e).events = st.events ++ [e] := rfl

@[simp] theorem setValue_store (st : State) (b : BindingId) (v : Bool) :
    (setValue st b v).store = st.store := rfl

@[simp] theorem setValue_subs (st : State) (b : BindingId) (v : Bool) :
    (setValue st b v).subs = st.subs := rfl

@[simp] theorem setValue_widgets (st : State) (b : BindingId) (v : Bool) :
    (setValue st b v).widgets = st.widgets.set b v := rfl

@[simp] theorem setValue_events (st : State) (b : BindingId) (v : Bool) :
    (setValue st b v).events = st.events ++ [Event.widgetSet b v] := rfl

@[simp] theorem deliverTo_store (st : State) (p : PropName) (h : Handler) (v : Bool) :
    (deliverTo st p h v).store = st.store := by
  cases h <;> rfl

@[simp] theorem deliverTo_subs (st : State) (p : PropName) (h : Handler) (v : Bool) :
    (deliverTo st p h v).subs = st.subs := by
  cases h <;> rfl

theorem deliverTo_events (st : State) (p : PropName) (h : Handler) (v : Bool) :
    (deliverTo st p h v).events = st.events ++ handlerEvents p h v := by
  cases h <;> simp [deliverTo, applyHandler, handlerEvents]

@[simp] theorem dispatchList_store (hs : List Handler) (p : PropName) (v : Bool) :
    ∀ st : State, (dispatchList st hs p v).store = st.store := by
  induction hs with
  | nil => intro st; rfl
  | cons h rest ih => intro st; simp [dispatchList, ih]

@[simp] theorem dispatchList_subs (hs : List Handler) (p : PropName) (v : Bool) :
    ∀ st : State, (dispatchList st hs p v).subs = st.subs := by
  induction hs with
  | nil => intro st; rfl
  | cons h rest ih => intro st; simp [dispatchList, ih]

theorem dispatchList_events (hs : List Handler) (p : PropName) (v : Bool) :
    ∀ st : State, (dispatchList st hs p v).events
      = st.events ++ hs.flatMap (fun h => handlerEvents p h v) := by
  induction hs with
  | nil => intro st; simp [dispatchList]
  | cons h rest ih => intro st; simp [dispatchList, ih, deliverTo_events]

theorem dispatchList_widgets_notMem (hs : List Handler) (p : PropName) (v : Bool)
    (b : BindingId) : ∀ st : State, Handler.binding b ∉ hs →
      ((dispatchList st hs p v).widgets).get b = st.widgets.get b := by
  induction hs with
  | nil => intro st _; rfl
  | cons h rest ih =>
      intro st hmem
      rw [dispatchList, ih _ fun hr => hmem (List.mem_cons_of_mem _ hr)]
      cases h with
      | binding c =>
          have hbc : b ≠ c := by
            rintro rfl
            exact hmem (List.mem_cons_self _ _)
          simp [deliverTo, applyHandler, widgets_get_set, hbc]
      | external n => rfl

theorem dispatchList_widgets_mem (hs : List Handler) (p : PropName) (v : Bool)
    (b : BindingId) : ∀ st : State, Handler.binding b ∈ hs →
      ((dispatchList st hs p v).widgets).get b = v := by
  induction hs with
  | nil => intro st hmem; cases hmem
  | cons h rest ih =>
      intro st hmem
      by_cases hr : Handler.binding b ∈ rest
      · exact ih _ hr
      · have hh : h = Handler.binding b := by
          rcases List.mem_cons.mp hmem with h1 | h1
          · exact h1.symm
          · exact absurd h1 hr
        subst hh
        rw [dispatchList, dispatchList_widgets_notMem rest p v b _ hr]
        simp [deliverTo, applyHandler, widgets_get_set]

@[simp] theorem storeSet_store (st : State) (p : PropName) (v : Bool) :
    (storeSet st p v).store = st.store.setVal p v := by
  simp [storeSet]

@[simp] theorem storeSet_subs (st : State) (p : PropName) (v : Bool) :
    (storeSet st p v).subs = st.subs := by
  simp [storeSet]

theorem storeSet_events (st : State) (p : PropName) (v : Bool) :
    (storeSet st p v).events
      = st.events ++ [Event.storeWrite p v]
        ++ (st.subs.get p).flatMap (fun h => handlerEvents p h v) := by
  simp [storeSet, dispatchList_events]

theorem storeSet_widgets_notMem (st : State) (p : PropName) (v : Bool) (b : BindingId)
    (h : Handler.binding b ∉ st.subs.get p) :
    (storeSet st p v).widgets.get b = st.widgets.get b :=
  dispatchList_widgets_notMem (st.subs.get p) p v b _ h

theorem storeSet_widgets_mem (st : State) (p : PropName) (v : Bool) (b : BindingId)
    (h : Handler.binding b ∈ st.subs.get p) :
    (storeSet st p v).widgets.get b = v :=
  dispatchList_widgets_mem (st.subs.get p) p v b _ h

@[simp] theorem connect_store (st : State) (b : BindingId) :
    (connect st b).store = st.store := rfl

@[simp] theorem connect_widgets (st : State) (b : BindingId) :
    (connect st b).widgets = st.widgets := rfl

@[simp] theorem connect_subs (st : State) (b : BindingId) :
    (connect st b).subs
      = st.subs.set (boundProp b)
          (st.subs.get (boundProp b) ++ [Handler.binding b]) := rfl

@[simp] theorem connect_events (st : State) (b : BindingId) :
    (connect st b).events = st.events ++ [Event.subscribe b (boundProp b)] := rfl

@[simp] theorem disconnect_store (st : State) (b : BindingId) :
    (disconnect st b).store = st.store := rfl

@[simp] theorem disconnect_widgets (st : State) (b : BindingId) :
    (disconnect st b).widgets = st.widgets := rfl

@[simp] theorem disconnect_subs (st : State) (b : BindingId) :
    (disconnect st b).subs
      = st.subs.set (boundProp b)
          ((st.subs.get (boundProp b)).erase (Handler.binding b)) := rfl

@[simp] theorem disconnect_events (st : State) (b : BindingId) :
    (disconnect st b).events = st.events ++ [Event.unsubscribe b (boundProp b)] := rfl

/-! ### The base toggle handler -/

theorem baseToggle_store (st : State) (b : BindingId) :
    (baseToggle st b).store
      = st.store.setVal (boundProp b) (st.widgets.get b) := by
  simp [baseToggle]

theorem baseToggle_subs (st : State) (b : BindingId) :
    (baseToggle st b).subs
      = st.subs.set (boundProp b)
          (((st.subs.get (boundProp b)).erase (Handler.binding b))
            ++ [Handler.binding b]) := by
  simp [baseToggle, subs_get_set, subs_set_set]

theorem baseToggle_events (st : State) (b : BindingId) :
    (baseToggle st b).events
      = st.events
        ++ [Event.unsubscribe b (boundProp b),
            Event.storeWrite (boundProp b) (st.widgets.get b)]
        ++ (((st.subs.get (boundProp b)).erase (Handler.binding b)).flatMap
              (fun h => handlerEvents (boundProp b) h (st.widgets.get b)))
        ++ [Event.subscribe b (boundProp b)] := by
  simp [baseToggle, storeSet_events, subs_get_set]

theorem baseToggle_widgets_get (st : State) (b : BindingId)
    (h : Handler.binding b ∉ (st.subs.get (boundProp b)).erase (Handler.binding b)) :
    (baseToggle st b).widgets.get b = st.widgets.get b := by
  unfold baseToggle
  rw [connect_widgets]
  have h2 : Handler.binding b ∉ (disconnect st b).subs.get (boundProp b) := by
    simpa [subs_get_set] using h
  rw [storeSet_widgets_notMem _ _ _ _ h2]
  rfl

/-! ### Trace projections of the dispatch segment -/

theorem filter_handlerEvents_ctl (p : PropName) (v : Bool) (hs : List Handler) :
    (hs.flatMap fun h => handlerEvents p h v).filter Event.isCtl = [] := by
  induction hs with
  | nil => rfl
  | cons h rest ih =>
      rw [List.flatMap_cons, List.filter_append, ih, List.append_nil]
      cases h <;> rfl

theorem filter_handlerEvents_write (p : PropName) (v : Bool) (hs : List Handler) :
    (hs.flatMap fun h => handlerEvents p h v).filter Event.isWrite = [] := by
  induction hs with
  | nil => rfl
  | cons h rest ih =>
      rw [List.flatMap_cons, List.filter_append, ih, List.append_nil]
      cases h <;> rfl

theorem filter_handlerEvents_redraw (p : PropName) (v : Bool) (hs : List Handler) :
    (hs.flatMap fun h => handlerEvents p h v).filter Event.isRedraw = [] := by
  induction hs with
  | nil => rfl
  | cons h rest ih =>
      rw [List.flatMap_cons, List.filter_append, ih, List.append_nil]
      cases h <;> rfl

theorem filter_handlerEvents_deliver (p : PropName) (v : Bool) (hs : List Handler) :
    (hs.flatMap fun h => handlerEvents p h v).filter Event.isDeliver
      = hs.map fun h => Event.deliver p h v := by
  induction hs with
  | nil => rfl
  | cons h rest ih =>
      rw [List.flatMap_cons, List.filter_append, ih, List.map_cons]
      cases h <;> rfl

theorem filter_handlerEvents_widgetSet (p : PropName) (v : Bool) (b : BindingId)
    (hs : List Handler) : Handler.binding b ∉ hs →
      (hs.flatMap fun h => handlerEvents p h v).filter (Event.isWidgetSetOf b) = [] := by
  induction hs with
  | nil => intro _; rfl
  | cons h rest ih =>
      intro hmem
      have hrest := ih fun hr => hmem (List.mem_cons_of_mem _ hr)
      rw [List.flatMap_cons, List.filter_append, hrest, List.append_nil]
      cases h with
      | binding c =>
          have hcb : c ≠ b := by
            rintro rfl
            exact hmem (List.mem_cons_self _ _)
          simp [handlerEvents, Event.isWidgetSetOf, hcb]
      | external n => rfl

/-! ### Trace projections of the base toggle handler -/

theorem baseToggle_ctl (st : State) (b : BindingId) :
    ((baseToggle st b).events).filter Event.isCtl
      = st.events.filter Event.isCtl
        ++ [Event.unsubscribe b (boundProp b),
            Event.storeWrite (boundProp b) (st.widgets.get b),
            Event.subscribe b (boundProp b)] := by
  rw [baseToggle_events]
  simp [List.filter_append, filter_handlerEvents_ctl, Event.isCtl]

theorem baseToggle_write (st : State) (b : BindingId) :
    ((baseToggle st b).events).filter Event.isWrite
      = st.events.filter Event.isWrite
        ++ [Event.storeWrite (boundProp b) (st.widgets.get b)] := by
  rw [baseToggle_events]
  simp [List.filter_append, filter_handlerEvents_write, Event.isWrite]

theorem baseToggle_redraw (st : State) (b : BindingId) :
    ((baseToggle st b).events).filter Event.isRedraw
      = st.events.filter Event.isRedraw := by
  rw [baseToggle_events]
  simp [List.filter_append, filter_handlerEvents_redraw, Event.isRedraw]

theorem baseToggle_deliver (st : State) (b : BindingId) :
    ((baseToggle st b).events).filter Event.isDeliver
      = st.events.filter Event.isDeliver
        ++ ((st.subs.get (boundProp b)).erase (Handler.binding b)).map
            (fun h => Event.deliver (boundProp b) h (st.widgets.get b)) := by
  rw [baseToggle_events]
  simp [List.filter_append, filter_handlerEvents_deliver, Event.isDeliver]

theorem baseToggle_widgetSet (st : State) (b : BindingId)
    (h : Handler.binding b ∉ (st.subs.get (boundProp b)).erase (Handler.binding b)) :
    ((baseToggle st b).events).filter (Event.isWidgetSetOf b)
      = st.events.filter (Event.isWidgetSetOf b) := by
  rw [baseToggle_events]
  simp [List.filter_append, filter_handlerEvents_widgetSet _ _ _ _ h,
    Event.isWidgetSetOf]

/-! ### The installed toggle handlers (base and overridden variants) -/

theorem onToggle_store (st : State) (b : BindingId) :
    (onToggleCheckBox st b).store
      = st.store.setVal (boundProp b) (st.widgets.get b) := by
  cases b <;> simp only [onToggleCheckBox] <;>
    first
      | exact baseToggle_store _ _
      | (split <;> simp [baseToggle_store])

theorem onToggle_subs (st : State) (b : BindingId) :
    (onToggleCheckBox st b).subs
      = st.subs.set (boundProp b)
          (((st.subs.get (boundProp b)).erase (Handler.binding b))
            ++ [Handler.binding b]) := by
  cases b <;> simp only [onToggleCheckBox] <;>
    first
      | exact baseToggle_subs _ _
      | (split <;> simp [baseToggle_subs])

theorem onToggle_widgets_get (st : State) (b : BindingId)
    (h : Handler.binding b ∉ (st.subs.get (boundProp b)).erase (Handler.binding b)) :
    (onToggleCheckBox st b).widgets.get b = st.widgets.get b := by
  cases b <;> simp only [onToggleCheckBox] <;>
    first
      | exact baseToggle_widgets_get _ _ h
      | (split <;> simp [baseToggle_widgets_get _ _ h])

theorem onToggle_ctl (st : State) (b : BindingId) :
    ((onToggleCheckBox st b).events).filter Event.isCtl
      = st.events.filter Event.isCtl
        ++ [Event.unsubscribe b (boundProp b),
            Event.storeWrite (boundProp b) (st.widgets.get b),
            Event.subscribe b (boundProp b)] := by
  cases b <;> simp only [onToggleCheckBox] <;>
    first
      | exact baseToggle_ctl _ _
      | (split <;> simp [baseToggle_ctl, List.filter_append, Event.isCtl])

theorem onToggle_write (st : State) (b : BindingId) :
    ((onToggleCheckBox st b).events).filter Event.isWrite
      = st.events.filter Event.isWrite
        ++ [Event.storeWrite (boundProp b) (st.widgets.get b)] := by
  cases b <;> simp only [onToggleCheckBox] <;>
    first
      | exact baseToggle_write _ _
      | (split <;> simp [baseToggle_write, List.filter_append, Event.isWrite])

theorem onToggle_deliver (st : State) (b : BindingId) :
    ((onToggleCheckBox st b).events).filter Event.isDeliver
      = st.events.filter Event.isDeliver
        ++ ((st.subs.get (boundProp b)).erase (Handler.binding b)).map
            (fun h => Event.deliver (boundProp b) h (st.widgets.get b)) := by
  cases b <;> simp only [onToggleCheckBox] <;>
    first
      | exact baseToggle_deliver _ _
      | (split <;> simp [baseToggle_deliver, List.filter_append, Event.isDeliver])

theorem onToggle_widgetSet (st : State) (b : BindingId)
    (h : Handler.binding b ∉ (st.subs.get (boundProp b)).erase (Handler.binding b)) :
    ((onToggleCheckBox st b).events).filter (Event.isWidgetSetOf b)
      = st.events.filter (Event.isWidgetSetOf b) := by
  cases b <;> simp only [onToggleCheckBox] <;>
    first
      | exact baseToggle_widgetSet _ _ h
      | (split <;> simp [baseToggle_widgetSet _ _ h, List.filter_append, Event.isWidgetSetOf])

/-! ### Counting helpers -/

theorem count_eq_zero_of_noBindings (l : List Handler) (h : noBindings l = true)
    (b : BindingId) : l.count (Handler.binding b) = 0 := by
  rw [List.count_eq_zero]
  intro hmem
  simpa using List.all_eq_true.mp h _ hmem

theorem not_mem_erase_of_count_le_one (l : List Handler) (h : Handler)
    (hc : l.count h ≤ 1) : h ∉ l.erase h := by
  rw [← List.count_eq_zero, List.count_erase_self]
  omega

theorem subCount_disconnect (st : State) (b : BindingId) :
    subCount (disconnect st b) b = subCount st b - 1 := by
  simp [subCount, subs_get_set, List.count_erase_self]

theorem count_erase_append_self (l : List Handler) (a : Handler)
    (hc : l.count a = 1) : ((l.erase a) ++ [a]).count a = 1 := by
  simp [List.count_append, List.count_erase_self, hc]

theorem constructBinding_subs (st : State) (b : BindingId) :
    (constructBinding st b).subs
      = st.subs.set (boundProp b)
          (st.subs.get (boundProp b) ++ [Handler.binding b]) := rfl

/-! ### The single-subscription invariant over reachable states -/

theorem subCount_initState (s0 : Store) (w0 : Widgets) (su : Subs)
    (h : su.extOnly = true) (b : BindingId) :
    subCount (initState s0 w0 su) b = 1 := by
  simp only [Subs.extOnly, Bool.and_eq_true] at h
  obtain ⟨⟨⟨ha, hal⟩, hr⟩, hs⟩ := h
  cases b with
  | render =>
      simp only [subCount, initState, constructDialog, constructBinding_subs,
        boundProp, subs_get_set]
      simp only [Subs.get]
      simp [List.count_append, count_eq_zero_of_noBindings su.autoRender ha]
  | alignExtent =>
      simp only [subCount, initState, constructDialog, constructBinding_subs,
        boundProp, subs_get_set]
      simp only [Subs.get]
      simp [List.count_append, count_eq_zero_of_noBindings su.alignExtent hal]
  | resolution =>
      simp only [subCount, initState, constructDialog, constructBinding_subs,
        boundProp, subs_get_set]
      simp only [Subs.get]
      simp [List.count_append, count_eq_zero_of_noBindings su.resolution hr]
  | showRegion =>
      simp only [subCount, initState, constructDialog, constructBinding_subs,
        boundProp, subs_get_set]
      simp only [Subs.get]
      simp [List.count_append, count_eq_zero_of_noBindings su.showRegion hs]

theorem subCount_storeSet (st : State) (p : PropName) (v : Bool) (b : BindingId) :
    subCount (storeSet st p v) b = subCount st b := by
  simp [subCount]

theorem subCount_userToggle (st : State) (b c : BindingId) (v : Bool)
    (h1 : subCount st c = 1) : subCount (userToggle st b v) c = 1 := by
  have hsubs : (userToggle st b v).subs
      = st.subs.set (boundProp b)
          (((st.subs.get (boundProp b)).erase (Handler.binding b))
            ++ [Handler.binding b]) := by
    have h2 := onToggle_subs { st with widgets := st.widgets.set b v } b
    simpa [userToggle] using h2
  unfold subCount
  rw [hsubs, subs_get_set]
  by_cases hbc : boundProp c = boundProp b
  · have hcb : c = b := (boundProp_eq_iff _ _).mp hbc
    subst hcb
    rw [if_pos rfl]
    exact count_erase_append_self _ _ h1
  · rw [if_neg hbc]
    exact h1

theorem reachable_subCount (st : State) (h : Reachable st) (b : BindingId) :
    subCount st b = 1 := by
  induction h with
  | start s0 w0 su hsu => exact subCount_initState s0 w0 su hsu b
  | toggle c v _ ih => exact subCount_userToggle _ c b v ih
  | extWrite p v _ ih => exact (subCount_storeSet _ p v b).trans ih

/-! ### Conditional redraws of the two side-effecting variants -/

theorem onToggle_redraw_resolution (st : State) :
    ((onToggleCheckBox st BindingId.resolution).events).filter Event.isRedraw
      = st.events.filter Event.isRedraw
        ++ (if st.store.autoRender then [Event.redraw true] else []) := by
  have hc : (baseToggle st BindingId.resolution).store.autoRender
      = st.store.autoRender := by
    rw [baseToggle_store]; rfl
  simp only [onToggleCheckBox]
  split
  · rename_i hA
    rw [hc] at hA
    simp [List.filter_append, Event.isRedraw, baseToggle_redraw, hA]
  · rename_i hA
    rw [hc] at hA
    simp [baseToggle_redraw, hA]

theorem onToggle_redraw_showRegion (st : State) :
    ((onToggleCheckBox st BindingId.showRegion).events).filter Event.isRedraw
      = st.events.filter Event.isRedraw
        ++ (if st.store.autoRender then [Event.redraw false] else []) := by
  have hc : (baseToggle st BindingId.showRegion).store.autoRender
      = st.store.autoRender := by
    rw [baseToggle_store]; rfl
  simp only [onToggleCheckBox]
  split
  · rename_i hA
    rw [hc] at hA
    simp [List.filter_append, Event.isRedraw, baseToggle_redraw, hA]
  · rename_i hA
    rw [hc] at hA
    simp [baseToggle_redraw, hA]

theorem userToggle_store_autoRender_resolution (st : State) (v : Bool) :
    (userToggle st BindingId.resolution v).store.autoRender
      = st.store.autoRender := by
  have h2 := onToggle_store
    { st with widgets := st.widgets.set BindingId.resolution v } BindingId.resolution
  simp only [userToggle, h2]
  rfl

theorem userToggle_store_autoRender_showRegion (st : State) (v : Bool) :
    (userToggle st BindingId.showRegion v).store.autoRender
      = st.store.autoRender := by
  have h2 := onToggle_store
    { st with widgets := st.widgets.set BindingId.showRegion v } BindingId.showRegion
  simp only [userToggle, h2]
  rfl

/-! ### The claims -/

/-- C1: For every binding and every user toggle of its widget, the toggle
handler performs exactly these steps in this order: first unsubscribe the
binding's handler from the property's signal, then write the widget's
currently displayed boolean value into the bound store property, then
re-subscribe the same handler — stated as: the control events
(subscriptions, unsubscriptions, store writes) the installed handler
appends to the trace are exactly these three, in this order. -/
theorem c1_toggle_protocol_order (st : State) (b : BindingId) :
    ((onToggleCheckBox st b).events).filter Event.isCtl
      = st.events.filter Event.isCtl
        ++ [Event.unsubscribe b (boundProp b),
            Event.storeWrite (boundProp b) (st.widgets.get b),
            Event.subscribe b (boundProp b)] :=
  onToggle_ctl st b

/-- C2: starting from store value `not v` with binding `b` subscribed
exactly once, a single user toggle of `b`'s widget to `v` ends with the
widget displaying `v` and the store property equal to `v`; during the
toggle the property is written (and hence its signal fired) exactly
once, the firing is delivered to every other subscribed handler in
order, and never to `b`'s own handler. -/
theorem c2_self_write_suppression (st : State) (b : BindingId) (v : Bool)
    (_h1 : st.store.get (boundProp b) = !v)
    (h2 : (st.subs.get (boundProp b)).count (Handler.binding b) = 1) :
    (userToggle st b v).widgets.get b = v
    ∧ (userToggle st b v).store.get (boundProp b) = v
    ∧ ((userToggle st b v).events).filter Event.isWrite
        = st.events.filter Event.isWrite ++ [Event.storeWrite (boundProp b) v]
    ∧ ((userToggle st b v).events).filter Event.isDeliver
        = st.events.filter Event.isDeliver
          ++ ((st.subs.get (boundProp b)).erase (Handler.binding b)).map
              (fun h => Event.deliver (boundProp b) h v)
    ∧ Handler.binding b ∉ (st.subs.get (boundProp b)).erase (Handler.binding b) := by
  have hnot : Handler.binding b
      ∉ (st.subs.get (boundProp b)).erase (Handler.binding b) :=
    not_mem_erase_of_count_le_one _ _ h2.le
  refine ⟨?_, ?_, ?_, ?_, hnot⟩
  · have h3 := onToggle_widgets_get { st with widgets := st.widgets.set b v } b
      (by simpa using hnot)
    simpa [userToggle, widgets_get_set] using h3
  · have h3 := onToggle_store { st with widgets := st.widgets.set b v } b
    simp [userToggle, h3, Store.get_setVal, widgets_get_set]
  · have h3 := onToggle_write { st with widgets := st.widgets.set b v } b
    simpa [userToggle, widgets_get_set] using h3
  · have h3 := onToggle_deliver { st with widgets := st.widgets.set b v } b
    simpa [userToggle, widgets_get_set] using h3

/-- C2 witness: concrete run from `state1` toggling the render binding
to `true`. -/
theorem c2_witness :
    state1.store.get (boundProp BindingId.render) = !true
    ∧ (state1.subs.get (boundProp BindingId.render)).count
        (Handler.binding BindingId.render) = 1
    ∧ ((userToggle state1 BindingId.render true).widgets.get BindingId.render = true
       ∧ (userToggle state1 BindingId.render true).store.get
           (boundProp BindingId.render) = true
       ∧ ((userToggle state1 BindingId.render true).events).filter Event.isWrite
           = state1.events.filter Event.isWrite
             ++ [Event.storeWrite (boundProp BindingId.render) true]
       ∧ ((userToggle state1 BindingId.render true).events).filter Event.isDeliver
           = state1.events.filter Event.isDeliver
             ++ ((state1.subs.get (boundProp BindingId.render)).erase
                   (Handler.binding BindingId.render)).map
                 (fun h => Event.deliver (boundProp BindingId.render) h true)
       ∧ Handler.binding BindingId.render
           ∉ (state1.subs.get (boundProp BindingId.render)).erase
               (Handler.binding BindingId.render)) :=
  ⟨by decide, by decide,
    c2_self_write_suppression state1 BindingId.render true (by decide) (by decide)⟩

/-- C3: a single user toggle of binding `b`'s widget causes exactly one
store write (to `b`'s bound property, with the selected value), the
widget ends up displaying the selected value, and no `SetValue` call
touches `b`'s widget during the toggle (the value is neither
double-applied nor reverted by the toggle's own signal dispatch). -/
theorem c3_no_feedback_loop (st : State) (b : BindingId) (v : Bool)
    (h2 : (st.subs.get (boundProp b)).count (Handler.binding b) ≤ 1) :
    ((userToggle st b v).events).filter Event.isWrite
        = st.events.filter Event.isWrite ++ [Event.storeWrite (boundProp b) v]
    ∧ (userToggle st b v).widgets.get b = v
    ∧ ((userToggle st b v).events).filter (Event.isWidgetSetOf b)
        = st.events.filter (Event.isWidgetSetOf b) := by
  have hnot : Handler.binding b
      ∉ (st.subs.get (boundProp b)).erase (Handler.binding b) :=
    not_mem_erase_of_count_le_one _ _ h2
  refine ⟨?_, ?_, ?_⟩
  · have h3 := onToggle_write { st with widgets := st.widgets.set b v } b
    simpa [userToggle, widgets_get_set] using h3
  · have h3 := onToggle_widgets_get { st with widgets := st.widgets.set b v } b
      (by simpa using hnot)
    simpa [userToggle, widgets_get_set] using h3
  · have h3 := onToggle_widgetSet { st with widgets := st.widgets.set b v } b
      (by simpa using hnot)
    simpa [userToggle] using h3

/-- C3 witness: concrete run from `state1` toggling the render binding
to `true`. -/
theorem c3_witness :
    (state1.subs.get (boundProp BindingId.render)).count
        (Handler.binding BindingId.render) ≤ 1
    ∧ (((userToggle state1 BindingId.render true).events).filter Event.isWrite
        = state1.events.filter Event.isWrite
          ++ [Event.storeWrite (boundProp BindingId.render) true]
       ∧ (userToggle state1 BindingId.render true).widgets.get BindingId.render = true
       ∧ ((userToggle state1 BindingId.render true).events).filter
             (Event.isWidgetSetOf BindingId.render)
           = state1.events.filter (Event.isWidgetSetOf BindingId.render)) :=
  ⟨by decide, c3_no_feedback_loop state1 BindingId.render true (by decide)⟩

/-- C4: a `store.set(P, v)` from outside the bindings sets the widget of
every binding currently subscribed to `P`'s signal to `v`, changes the
store only at `P` (no write back into the store from any binding: the
only store-write event of the whole operation is the external one). -/
theorem c4_external_change_propagation (st : State) (p : PropName) (v : Bool)
    (b : BindingId) (hb : Handler.binding b ∈ st.subs.get p) :
    (externalSet st p v).widgets.get b = v
    ∧ (externalSet st p v).store = st.store.setVal p v
    ∧ ((externalSet st p v).events).filter Event.isWrite
        = st.events.filter Event.isWrite ++ [Event.storeWrite p v] := by
  refine ⟨storeSet_widgets_mem st p v b hb, storeSet_store st p v, ?_⟩
  show ((storeSet st p v).events).filter Event.isWrite = _
  rw [storeSet_events]
  simp [List.filter_append, filter_handlerEvents_write, Event.isWrite]

/-- C4 witness: concrete external write of `autoRender := true` on
`state1`, observed by the subscribed render binding. -/
theorem c4_witness :
    Handler.binding BindingId.render ∈ state1.subs.get PropName.autoRender
    ∧ ((externalSet state1 PropName.autoRender true).widgets.get BindingId.render
          = true
       ∧ (externalSet state1 PropName.autoRender true).store
           = state1.store.setVal PropName.autoRender true
       ∧ ((externalSet state1 PropName.autoRender true).events).filter Event.isWrite
           = state1.events.filter Event.isWrite
             ++ [Event.storeWrite PropName.autoRender true]) :=
  ⟨by decide,
    c4_external_change_propagation state1 PropName.autoRender true
      BindingId.render (by decide)⟩

/-- C5: a user toggle of the resolution binding's widget appends exactly
one full-rerender redraw request when the store's `autoRender` flag
holds after the toggle protocol completes (the toggle never changes
`autoRender`), and none otherwise. -/
theorem c5_resolution_conditional_redraw (st : State) (v : Bool) :
    ((userToggle st BindingId.resolution v).events).filter Event.isRedraw
      = st.events.filter Event.isRedraw
        ++ (if (userToggle st BindingId.resolution v).store.autoRender
            then [Event.redraw true] else []) := by
  rw [userToggle_store_autoRender_resolution]
  have h3 := onToggle_redraw_resolution
    { st with widgets := st.widgets.set BindingId.resolution v }
  simpa [userToggle] using h3

/-- C6: a user toggle of the show-region binding's widget appends exactly
one lightweight (non-full) redraw request when the store's `autoRender`
flag holds after the toggle protocol completes, and none otherwise. -/
theorem c6_showRegion_conditional_redraw (st : State) (v : Bool) :
    ((userToggle st BindingId.showRegion v).events).filter Event.isRedraw
      = st.events.filter Event.isRedraw
        ++ (if (userToggle st BindingId.showRegion v).store.autoRender
            then [Event.redraw false] else []) := by
  rw [userToggle_store_autoRender_showRegion]
  have h3 := onToggle_redraw_showRegion
    { st with widgets := st.widgets.set BindingId.showRegion v }
  simpa [userToggle] using h3

/-- C7: constructing a binding seeds the widget from the store's current
value and only then subscribes: the constructor appends exactly one
`SetValue` of the store's value followed by one subscription, the widget
ends up displaying the store's value, and no signal delivery and no
store write happen during construction. -/
theorem c7_idempotent_seeding (st : State) (b : BindingId) :
    (constructBinding st b).events
      = st.events ++ [Event.widgetSet b (st.store.get (boundProp b)),
          Event.subscribe b (boundProp b)]
    ∧ (constructBinding st b).widgets.get b = st.store.get (boundProp b)
    ∧ ((constructBinding st b).events).filter Event.isDeliver
        = st.events.filter Event.isDeliver
    ∧ ((constructBinding st b).events).filter Event.isWrite
        = st.events.filter Event.isWrite := by
  refine ⟨?_, ?_, ?_, ?_⟩
  · simp [constructBinding]
  · simp [constructBinding, widgets_get_set]
  · simp [constructBinding, List.filter_append, Event.isDeliver]
  · simp [constructBinding, List.filter_append, Event.isWrite]

/-- C8: user toggles of the render binding and of the align-extent
binding never append a redraw request, whatever the state of the store
and of the other properties. -/
theorem c8_render_alignExtent_no_redraw (st : State) (v : Bool) :
    ((userToggle st BindingId.render v).events).filter Event.isRedraw
        = st.events.filter Event.isRedraw
    ∧ ((userToggle st BindingId.alignExtent v).events).filter Event.isRedraw
        = st.events.filter Event.isRedraw := by
  constructor
  · have h3 := baseToggle_redraw
      { st with widgets := st.widgets.set BindingId.render v } BindingId.render
    simpa [userToggle, onToggleCheckBox] using h3
  · have h3 := baseToggle_redraw
      { st with widgets := st.widgets.set BindingId.alignExtent v }
      BindingId.alignExtent
    simpa [userToggle, onToggleCheckBox] using h3

/-- C9: in every state reachable from dialog construction by user
toggles and external writes, each binding's handler is subscribed to its
property's signal exactly once (never twice), and strictly between the
unsubscribe and the resubscribe of a toggle it holds no subscription. -/
theorem c9_single_subscription (st : State) (h : Reachable st) :
    ∀ b : BindingId, subCount st b = 1 ∧ subCount (disconnect st b) b = 0 := by
  intro b
  have h1 := reachable_subCount st h b
  exact ⟨h1, by rw [subCount_disconnect, h1]⟩

/-- C9 witness: the freshly constructed dialog over `subs0`. -/
theorem c9_witness :
    subCount (initState store0 widgets0 subs0) BindingId.render = 1
    ∧ subCount (disconnect (initState store0 widgets0 subs0) BindingId.render)
        BindingId.render = 0 :=
  c9_single_subscription _
    (Reachable.start store0 widgets0 subs0 (by decide)) BindingId.render

/-- C10: a user toggle of binding `b` writes only `b`'s own bound store
property: every other property keeps its value across the whole toggle,
including the post-toggle redraw side effects of the resolution and
show-region variants. -/
theorem c10_toggle_frame (st : State) (b : BindingId) (v : Bool) (p : PropName)
    (hp : p ≠ boundProp b) :
    (userToggle st b v).store.get p = st.store.get p := by
  have h3 := onToggle_store { st with widgets := st.widgets.set b v } b
  simp [userToggle, h3, Store.get_setVal, hp]

/-- C10 witness: toggling the render binding leaves `showRegion`
unchanged. -/
theorem c10_witness :
    PropName.showRegion ≠ boundProp BindingId.render
    ∧ (userToggle state1 BindingId.render true).store.get PropName.showRegion
        = state1.store.get PropName.showRegion :=
  ⟨by decide,
    c10_toggle_frame state1 BindingId.render true PropName.showRegion (by decide)⟩

end MapDispProperties
